import Mathlib

/-!
Verification of the credential-lifecycle and token-persistence layer of a
Google Calendar MCP server, as a shallow embedding of the Python sources
(`google_calendar_mcp.auth.token_store`, `google_calendar_mcp.auth.oauth`,
`google_calendar_mcp.calendar.*`, `google_calendar_mcp.tools.*`).

Machine-level conventions of the embedding:
* Python `dict` records are Lean structures with `Option` fields for keys
  read via `dict.get`.
* The standard-library JSON codec (`json.dump` / `json.load`) is modelled at
  its boundary: a file either holds a well-formed serialization of a record,
  which `json.load` recovers exactly, or content that fails to decode
  (`JSONDecodeError`), covering corrupt/unreadable storage.
* The filesystem is a map from path strings to files (content plus
  permission bits); `open("w")`, `chmod` and `Path.replace` are explicit
  state transformers on that map.
* Exceptions are `Except`: a raised `ValueError` / `CalendarAuthError`
  is an `Except.error` value.
-/

namespace GCal

/-! ## Token store (`auth/token_store.py`) -/

/-- The persisted credential record, i.e. the dict produced by
`_credentials_to_dict` / consumed by `_credentials_from_dict`.  Every field
is read back with `dict.get`, so every field is an `Option`.  The client
secret is intentionally absent: it is never persisted. -/
structure TokenData where
  token : Option String
  refresh_token : Option String
  token_uri : Option String
  client_id : Option String
  scopes : Option (List String)
deriving DecidableEq, Repr

/-- Boundary model of Python's `json` module for token files: `json.dump`
writes a well-formed serialization of a record; any other byte content makes
`json.load` raise `JSONDecodeError` (or the read raise `OSError`), which is
the `corrupt` constructor. -/
inductive FileContent where
  | record (d : TokenData)
  | corrupt (raw : String)
deriving DecidableEq, Repr

/-- `json.load` on a token file: recovers the dumped record, or fails. -/
def jsonLoad : FileContent → Option TokenData
  | .record d => some d
  | .corrupt _ => none

/-- `json.dump(data, fh)`. -/
def jsonDump (d : TokenData) : FileContent := .record d

/-- One on-disk file: its content and its permission bits (`st_mode & 0o777`). -/
structure FileData where
  content : FileContent
  mode : Nat
deriving DecidableEq, Repr

/-- The filesystem state: a map from absolute path to file. -/
def FS : Type := String → Option FileData

/-- `open(p, "w")` then writing `f`: creates/truncates the file at `p`.
The creation mode (0o666 masked by the process umask) is part of `f`. -/
def FS.write (fs : FS) (p : String) (f : FileData) : FS :=
  fun q => if q = p then some f else fs q

/-- `Path.chmod(m)` on `p`. -/
def FS.chmod (fs : FS) (p : String) (m : Nat) : FS :=
  fun q => if q = p then (fs p).map (fun f => { f with mode := m }) else fs q

/-- `Path.replace`: atomically rename `src` over `dst`. -/
def FS.rename (fs : FS) (src dst : String) : FS :=
  fun q => if q = dst then fs src else if q = src then none else fs q

/-- `Path.unlink` on `p`. -/
def FS.erase (fs : FS) (p : String) : FS :=
  fun q => if q = p then none else fs q

/-- The sanitization step of `FileTokenStore._token_path`:
`"".join(c for c in user_id if c.isalnum() or c in "-_")`.
(The embedding uses ASCII alphanumerics; the claims at stake concern
characters — path separators, dots, null bytes — that are non-alphanumeric
in both readings.) -/
def sanitize_user_id (user_id : String) : String :=
  String.mk (user_id.data.filter (fun c => c.isAlphanum || c = '-' || c = '_'))

/-- `FileTokenStore._token_path`: sanitize, reject an empty result with
`ValueError`, else return `store_dir / (safe_id ++ ".token.json")`. -/
def token_path (store_dir : String) (user_id : String) : Except String String :=
  let safe_id := sanitize_user_id user_id
  if safe_id = "" then .error ("Invalid user_id: " ++ user_id)
  else .ok (store_dir ++ "/" ++ safe_id ++ ".token.json")

/-- `path.with_suffix(".tmp")`: replaces the last dot-suffix of the final
component.  Every path produced by `token_path` ends in the 5-character
suffix `".json"`, so at this call site `with_suffix` drops those 5
characters and appends `".tmp"`. -/
def with_suffix_tmp (p : String) : String := p.dropRight 5 ++ ".tmp"

/-- `FileTokenStore.load`: compute the path (may raise `ValueError`), return
`None` when the file does not exist, decode it otherwise, and absorb any
decode/read failure into `None`. -/
def FileTokenStore.load (fs : FS) (store_dir user_id : String) :
    Except String (Option TokenData) := do
  let path ← token_path store_dir user_id
  match fs path with
  | none => return none
  | some f => return jsonLoad f.content

/-- `FileTokenStore.save`: mkdir (directory-level, no file effect in this
model), compute the path (may raise `ValueError`), write the serialized
record to the `.tmp` sibling under an exclusive lock, chmod it to 0o600,
then atomically replace the final path.  `create_mode` is the mode bits
`open("w")` gives a newly created file (0o666 masked by the umask). -/
def FileTokenStore.save (fs : FS) (store_dir user_id : String)
    (data : TokenData) (create_mode : Nat) : Except String FS := do
  let path ← token_path store_dir user_id
  let tmp := with_suffix_tmp path
  let fs1 := fs.write tmp ⟨jsonDump data, create_mode⟩
  let fs2 := fs1.chmod tmp 0o600
  let fs3 := fs2.rename tmp path
  return fs3

/-- `FileTokenStore.delete`: compute the path (may raise `ValueError`),
unlink when the file exists, no-op otherwise. -/
def FileTokenStore.delete (fs : FS) (store_dir user_id : String) :
    Except String FS := do
  let path ← token_path store_dir user_id
  match fs path with
  | none => return fs
  | some _ => return fs.erase path

/-! ## Credential manager (`auth/oauth.py`) -/

/-- The fields of `Config` (`config.py`) that the OAuth layer reads. -/
structure Config where
  client_id : String
  client_secret : String
  redirect_uri : String
  token_store_path : String
  scopes : List String
  default_calendar_id : String
deriving DecidableEq, Repr

/-- The external `google.oauth2.credentials.Credentials` object, at the
attribute boundary the repository code reads and writes.  `expired` is the
library's view of the token's expiry against the wall clock at call time;
the embedding carries it as a plain attribute (exactly how the repository's
own tests drive it). -/
structure Credentials where
  token : Option String
  refresh_token : Option String
  token_uri : String
  client_id : String
  client_secret : String
  scopes : Option (List String)
  expired : Bool
deriving DecidableEq, Repr

/-- `creds.valid` (google-auth): a token is present and not expired. -/
def Credentials.valid (c : Credentials) : Bool := c.token.isSome && !c.expired

/-- Python truthiness of an optional string attribute
(`None` and `""` are falsy), as used by `if ... and creds.refresh_token`. -/
def pyTruthyStr : Option String → Bool
  | none => false
  | some s => !(s == "")

/-- `_credentials_to_dict`: the persisted projection of a credential.
`scopes` is `list(creds.scopes) if creds.scopes else []` (falsy → `[]`);
the client secret is intentionally omitted. -/
def credentials_to_dict (c : Credentials) : TokenData :=
  { token := c.token
    refresh_token := c.refresh_token
    token_uri := some c.token_uri
    client_id := some c.client_id
    scopes := some (c.scopes.getD []) }

/-- `_credentials_from_dict`: rebuild a credential from a stored record and
the live configuration (which injects client id and secret).  The expiry
status of the rebuilt object is decided by the external library and clock,
supplied here as `expired`. -/
def credentials_from_dict (data : TokenData) (config : Config)
    (expired : Bool) : Credentials :=
  { token := data.token
    refresh_token := data.refresh_token
    token_uri := data.token_uri.getD "https://oauth2.googleapis.com/token"
    client_id := config.client_id
    client_secret := config.client_secret
    scopes := data.scopes
    expired := expired }

/-- The effect of a successful `creds.refresh(Request())` (external
google-auth): the access token is replaced by the newly minted one and the
credential is no longer expired.  (Refresh-token rotation, which the
claims do not touch, is elided.) -/
def refresh_effect (c : Credentials) (newTok : String) : Credentials :=
  { c with token := some newTok, expired := false }

/-- `CalendarAuthError`, split by the two raise sites in `get_credentials`:
the headless guard and the browser-flow failure. -/
inductive AuthError where
  | noValidToken (user_id : String)
  | flowFailed (user_id : String) (cause : String)
deriving DecidableEq, Repr

/-- Environment of external effects during one `get_credentials` call:
the expiry status google-auth assigns to the loaded credential, the outcome
of `creds.refresh(Request())` (new access token, or a `RefreshError`), and
the outcome of `InstalledAppFlow...run_local_server` (fresh credentials, or
the exception it raised). -/
structure OAuthEnv where
  expired : Bool
  refreshResult : Except String String
  flowResult : Except String Credentials
deriving Repr

/-- Observable I/O of one `get_credentials` call: number of `load`s issued
to the token store, the `save`s issued (user id and record, in order), and
the number of network interactions (refresh round-trips, browser-flow
runs). -/
structure Trace where
  loads : Nat
  saves : List (String × TokenData)
  refreshCalls : Nat
  flowRuns : Nat
deriving DecidableEq, Repr

/-- The token store as `get_credentials` sees it: the abstract
`TokenStore` interface, a key-value map over user ids.  `save` is a full
overwrite under the given key. -/
def storeUpdate (store : String → Option TokenData) (user_id : String)
    (d : TokenData) : String → Option TokenData :=
  fun u => if u = user_id then some d else store u

/-- The tail of `get_credentials` after no valid or refreshable credential
remains (step 4): headless raises `CalendarAuthError`; interactive runs the
browser flow, saving and returning its credentials on success.
`refreshCalls` counts a refresh attempt already made before falling
through. -/
def oauth_fallback (user_id : String)
    (store : String → Option TokenData) (env : OAuthEnv) (headless : Bool)
    (refreshCalls : Nat) :
    Except AuthError Credentials × Trace × (String → Option TokenData) :=
  if headless then
    (.error (.noValidToken user_id), ⟨1, [], refreshCalls, 0⟩, store)
  else
    match env.flowResult with
    | .error cause =>
        (.error (.flowFailed user_id cause), ⟨1, [], refreshCalls, 1⟩, store)
    | .ok c =>
        let d := credentials_to_dict c
        (.ok c, ⟨1, [(user_id, d)], refreshCalls, 1⟩,
          storeUpdate store user_id d)

/-- `get_credentials` (`auth/oauth.py`): load the stored record; return a
valid credential immediately; refresh an expired credential that has a
refresh token, persisting on success and falling through on
`RefreshError`; otherwise fail (headless) or run the browser flow
(interactive).  Returns the outcome, the I/O trace, and the store state
after the call. -/
def get_credentials (user_id : String) (config : Config)
    (store : String → Option TokenData) (env : OAuthEnv) (headless : Bool) :
    Except AuthError Credentials × Trace × (String → Option TokenData) :=
  let token_data := store user_id
  let creds : Option Credentials :=
    token_data.map (fun d => credentials_from_dict d config env.expired)
  match creds with
  | some c =>
      if c.valid then
        (.ok c, ⟨1, [], 0, 0⟩, store)
      else if c.expired && pyTruthyStr c.refresh_token then
        match env.refreshResult with
        | .ok newTok =>
            let c2 := refresh_effect c newTok
            let d2 := credentials_to_dict c2
            (.ok c2, ⟨1, [(user_id, d2)], 1, 0⟩,
              storeUpdate store user_id d2)
        | .error _ =>
            oauth_fallback user_id store env headless 1
      else
        oauth_fallback user_id store env headless 0
  | none => oauth_fallback user_id store env headless 0

/-! ## Tool layer (`tools/*.py`, `calendar/*.py`) -/

/-- JSON values, as the structured payloads the tools serialize with
`json.dumps`. -/
inductive Json where
  | null
  | str (s : String)
  | num (n : Int)
  | bool (b : Bool)
  | arr (xs : List Json)
  | obj (fields : List (String × Json))

/-- Python `str.strip()` with no argument: remove leading and trailing
whitespace. -/
def py_strip (s : String) : String :=
  String.mk (((s.data.dropWhile Char.isWhitespace).reverse.dropWhile
    Char.isWhitespace).reverse)

/-- `_error(msg)` = `json.dumps({"error": msg})`, shared verbatim by the
three tool modules. -/
def error_json (msg : String) : Json := Json.obj [("error", Json.str msg)]

/-- Python `repr` of a string without quotes or backslashes inside: the
string wrapped in single-quote characters (f-string `!r` conversion). -/
def pyReprStr (s : String) : String :=
  String.mk [Char.ofNat 39] ++ s ++ String.mk [Char.ofNat 39]

/-- `sorted(_VALID_ORDER_BY)` joined with ", " in the `list_events_tool`
validation message. -/
def valid_order_by_msg : String := "order_by must be one of: startTime, updated"

/-- `order_by in _VALID_ORDER_BY` with `_VALID_ORDER_BY = {"startTime", "updated"}`. -/
def valid_order_by (order_by : String) : Bool :=
  order_by == "startTime" || order_by == "updated"

/-- One character of the `_HTTP_STATUS_RE` attempt anchored at the head of
the text: the literal `HttpError`, at least one whitespace character, then
three decimal digits, whose digits are returned. -/
def matchStatusAt (l : List Char) : Option String :=
  if "HttpError".data.isPrefixOf l then
    let rest := l.drop 9
    match rest with
    | c :: _ =>
        if c.isWhitespace then
          match rest.dropWhile Char.isWhitespace with
          | a :: b :: d :: _ =>
              if a.isDigit && b.isDigit && d.isDigit then
                some (String.mk [a, b, d])
              else none
          | _ => none
        else none
    | [] => none
  else none

/-- `_HTTP_STATUS_RE.search`: first position where the pattern matches. -/
def httpStatusSearch : List Char → Option String
  | [] => none
  | c :: cs =>
      match matchStatusAt (c :: cs) with
      | some s => some s
      | none => httpStatusSearch cs

/-- `sanitize_api_error` (`tools/__init__.py`): the client-facing string for
a `CalendarApiError` — only the HTTP status code when one can be extracted
from the message, a generic line otherwise.  (Defined in the source but
called by no tool handler.) -/
def sanitize_api_error (msg : String) : String :=
  match httpStatusSearch msg.data with
  | some code => "Calendar API error (" ++ code ++ ")"
  | none => "Calendar API request failed"

/-- External-call outcomes during one tool invocation: `get_client()`
(the lazily initialised handle, or the exception it raised) and the
`execute()` result of each Calendar API endpoint — its response payload
(already projected to the value the wrapper extracts), or the `str` of the
`HttpError` it raised. -/
structure ApiEnv where
  client : Except String Unit
  eventsList : Except String (List Json)
  eventsGet : Except String Json
  eventsDelete : Except String Unit
  calendarList : Except String (List Json)
  calendarGet : Except String Json
  freebusyQuery : Except String Json

/-- Observable I/O of one tool invocation: `get_client()` calls and
Calendar API round-trips. -/
structure ToolTrace where
  clientCalls : Nat
  apiCalls : Nat
deriving DecidableEq, Repr

/-- `calendar.events.list_events`: one `events().list(...).execute()`,
wrapping an `HttpError` into `CalendarApiError` with the full upstream
text appended to the prefix. -/
def cal_list_events (env : ApiEnv) : Except String (List Json) :=
  match env.eventsList with
  | .error e => .error ("Failed to list events: " ++ e)
  | .ok items => .ok items

/-- `calendar.events.search_events` (same endpoint, different prefix). -/
def cal_search_events (env : ApiEnv) : Except String (List Json) :=
  match env.eventsList with
  | .error e => .error ("Failed to search events: " ++ e)
  | .ok items => .ok items

/-- `calendar.events.get_event`. -/
def cal_get_event (env : ApiEnv) (event_id : String) : Except String Json :=
  match env.eventsGet with
  | .error e => .error ("Failed to get event " ++ pyReprStr event_id ++ ": " ++ e)
  | .ok j => .ok j

/-- `calendar.events.delete_event`. -/
def cal_delete_event (env : ApiEnv) (event_id : String) : Except String Unit :=
  match env.eventsDelete with
  | .error e => .error ("Failed to delete event " ++ pyReprStr event_id ++ ": " ++ e)
  | .ok _ => .ok ()

/-- `calendar.calendars.list_calendars`. -/
def cal_list_calendars (env : ApiEnv) : Except String (List Json) :=
  match env.calendarList with
  | .error e => .error ("Failed to list calendars: " ++ e)
  | .ok items => .ok items

/-- `calendar.calendars.get_calendar`. -/
def cal_get_calendar (env : ApiEnv) (calendar_id : String) : Except String Json :=
  match env.calendarGet with
  | .error e => .error ("Failed to get calendar " ++ pyReprStr calendar_id ++ ": " ++ e)
  | .ok j => .ok j

/-- `calendar.freebusy.check_free_busy`. -/
def cal_check_free_busy (env : ApiEnv) : Except String Json :=
  match env.freebusyQuery with
  | .error e => .error ("Failed to query free/busy: " ++ e)
  | .ok j => .ok j

/-- `list_events_tool`: reject an out-of-range `order_by` before anything
else; then build the client and list, catching `CalendarApiError` into the
error payload and any other exception into an "Unexpected error" payload. -/
def list_events_tool (env : ApiEnv) (calendar_id time_min time_max : String)
    (max_results : Int) (order_by : String) : Json × ToolTrace :=
  if !valid_order_by order_by then
    (error_json valid_order_by_msg, ⟨0, 0⟩)
  else
    match env.client with
    | .error e => (error_json ("Unexpected error: " ++ e), ⟨1, 0⟩)
    | .ok _ =>
        match cal_list_events env with
        | .error msg => (error_json msg, ⟨1, 1⟩)
        | .ok events =>
            (Json.obj [("events", Json.arr events),
                       ("count", Json.num events.length)], ⟨1, 1⟩)

/-- `search_events_tool`: reject an empty (after strip) query first. -/
def search_events_tool (env : ApiEnv) (query calendar_id time_min time_max : String)
    (max_results : Int) : Json × ToolTrace :=
  if py_strip query = "" then
    (error_json "query must not be empty", ⟨0, 0⟩)
  else
    match env.client with
    | .error e => (error_json ("Unexpected error: " ++ e), ⟨1, 0⟩)
    | .ok _ =>
        match cal_search_events env with
        | .error msg => (error_json msg, ⟨1, 1⟩)
        | .ok events =>
            (Json.obj [("events", Json.arr events),
                       ("count", Json.num events.length)], ⟨1, 1⟩)

/-- `get_event_tool`: reject an empty (after strip) event id first. -/
def get_event_tool (env : ApiEnv) (event_id calendar_id : String) :
    Json × ToolTrace :=
  if py_strip event_id = "" then
    (error_json "event_id must not be empty", ⟨0, 0⟩)
  else
    match env.client with
    | .error e => (error_json ("Unexpected error: " ++ e), ⟨1, 0⟩)
    | .ok _ =>
        match cal_get_event env event_id with
        | .error msg => (error_json msg, ⟨1, 1⟩)
        | .ok event => (event, ⟨1, 1⟩)

/-- The `TypeError` text CPython raises at the `create_event_tool` call
site: the tool passes keyword arguments `color_id` and `reminders` that
`calendar.events.create_event` does not accept. -/
def create_event_type_error : String :=
  "create_event() got an unexpected keyword argument " ++ pyReprStr "color_id"

/-- The corresponding `TypeError` text for the `update_event_tool` call
site (`calendar.events.update_event` accepts neither `color_id` nor
`reminders`). -/
def update_event_type_error : String :=
  "update_event() got an unexpected keyword argument " ++ pyReprStr "color_id"

/-- `create_event_tool`: reject an empty summary, then empty start/end,
before any client construction.  The attendee/color/reminder preprocessing
is pure and cannot fail; after `get_client()` succeeds, the call into
`create_event` raises `TypeError` (unexpected keyword arguments) before
any network traffic, and the generic handler converts it into an
"Unexpected error" payload. -/
def create_event_tool (env : ApiEnv)
    (summary start_ end_ calendar_id description location attendees : String)
    (all_day : Bool) (color_id reminders : String) : Json × ToolTrace :=
  if py_strip summary = "" then
    (error_json "summary must not be empty", ⟨0, 0⟩)
  else if py_strip start_ = "" || py_strip end_ = "" then
    (error_json "start and end must not be empty", ⟨0, 0⟩)
  else
    match env.client with
    | .error e => (error_json ("Unexpected error: " ++ e), ⟨1, 0⟩)
    | .ok _ =>
        (error_json ("Unexpected error: " ++ create_event_type_error), ⟨1, 0⟩)

/-- `update_event_tool`: reject an empty event id before any client
construction; the subsequent call into `update_event` raises `TypeError`
exactly as in `create_event_tool`. -/
def update_event_tool (env : ApiEnv)
    (event_id calendar_id summary start_ end_ description location attendees
     color_id reminders : String) : Json × ToolTrace :=
  if py_strip event_id = "" then
    (error_json "event_id must not be empty", ⟨0, 0⟩)
  else
    match env.client with
    | .error e => (error_json ("Unexpected error: " ++ e), ⟨1, 0⟩)
    | .ok _ =>
        (error_json ("Unexpected error: " ++ update_event_type_error), ⟨1, 0⟩)

/-- `delete_event_tool`: reject an empty (after strip) event id first. -/
def delete_event_tool (env : ApiEnv) (event_id calendar_id : String) :
    Json × ToolTrace :=
  if py_strip event_id = "" then
    (error_json "event_id must not be empty", ⟨0, 0⟩)
  else
    match env.client with
    | .error e => (error_json ("Unexpected error: " ++ e), ⟨1, 0⟩)
    | .ok _ =>
        match cal_delete_event env event_id with
        | .error msg => (error_json msg, ⟨1, 1⟩)
        | .ok _ =>
            (Json.obj [("deleted", Json.bool true),
                       ("event_id", Json.str event_id)], ⟨1, 1⟩)

/-- `list_calendars_tool`: no parameters, hence no validation. -/
def list_calendars_tool (env : ApiEnv) : Json × ToolTrace :=
  match env.client with
  | .error e => (error_json ("Unexpected error: " ++ e), ⟨1, 0⟩)
  | .ok _ =>
      match cal_list_calendars env with
      | .error msg => (error_json msg, ⟨1, 1⟩)
      | .ok calendars =>
          (Json.obj [("calendars", Json.arr calendars),
                     ("count", Json.num calendars.length)], ⟨1, 1⟩)

/-- `get_calendar_tool`: reject an empty (after strip) calendar id first. -/
def get_calendar_tool (env : ApiEnv) (calendar_id : String) :
    Json × ToolTrace :=
  if py_strip calendar_id = "" then
    (error_json "calendar_id must not be empty", ⟨0, 0⟩)
  else
    match env.client with
    | .error e => (error_json ("Unexpected error: " ++ e), ⟨1, 0⟩)
    | .ok _ =>
        match cal_get_calendar env calendar_id with
        | .error msg => (error_json msg, ⟨1, 1⟩)
        | .ok cal => (cal, ⟨1, 1⟩)

/-- `[c.strip() for c in calendar_ids.split(",") if c.strip()]`. -/
def csv_ids (s : String) : List String :=
  ((s.splitOn ",").map py_strip).filter (fun c => c ≠ "")

/-- `check_free_busy_tool`: reject empty (after strip) `time_min`/`time_max`
first; the calendar-id list is normalized (defaulting to `primary`) before
the client is built. -/
def check_free_busy_tool (env : ApiEnv)
    (time_min time_max calendar_ids timezone : String) : Json × ToolTrace :=
  if py_strip time_min = "" || py_strip time_max = "" then
    (error_json "time_min and time_max must not be empty", ⟨0, 0⟩)
  else
    let cal_ids := csv_ids calendar_ids
    let _cal_ids := if cal_ids = [] then ["primary"] else cal_ids
    match env.client with
    | .error e => (error_json ("Unexpected error: " ++ e), ⟨1, 0⟩)
    | .ok _ =>
        match cal_check_free_busy env with
        | .error msg => (error_json msg, ⟨1, 1⟩)
        | .ok result => (result, ⟨1, 1⟩)

/-! ## Concrete instances used by the witnesses -/

def sample_config : Config :=
  { client_id := "client-id"
    client_secret := "client-secret"
    redirect_uri := "http://localhost:8081"
    token_store_path := "/tokens"
    scopes := ["https://www.googleapis.com/auth/calendar"]
    default_calendar_id := "primary" }

def sample_valid_data : TokenData :=
  { token := some "access123"
    refresh_token := some "refresh123"
    token_uri := some "https://oauth2.googleapis.com/token"
    client_id := some "client-id"
    scopes := some ["https://www.googleapis.com/auth/calendar"] }

def sample_expired_data : TokenData :=
  { sample_valid_data with token := some "old-access", refresh_token := some "R" }

def sample_store_valid : String → Option TokenData :=
  fun u => if u = "default" then some sample_valid_data else none

def sample_store_expired : String → Option TokenData :=
  fun u => if u = "default" then some sample_expired_data else none

def sample_flow_creds : Credentials :=
  { token := some "flow-access"
    refresh_token := some "flow-refresh"
    token_uri := "https://oauth2.googleapis.com/token"
    client_id := "client-id"
    client_secret := "client-secret"
    scopes := some ["https://www.googleapis.com/auth/calendar"]
    expired := false }

def env_cache_hit : OAuthEnv :=
  { expired := false, refreshResult := .error "unused", flowResult := .error "unused" }

def env_refresh_ok : OAuthEnv :=
  { expired := true, refreshResult := .ok "NEW", flowResult := .error "unused" }

def env_refresh_revoked : OAuthEnv :=
  { expired := true
    refreshResult := .error "invalid_grant: Token has been expired or revoked."
    flowResult := .ok sample_flow_creds }

def fs_empty : FS := fun _ => none

/-- Whether an `Except` value is a success. -/
def exceptIsOk : Except ε α → Bool
  | .ok _ => true
  | .error _ => false

def sample_api_ok : ApiEnv :=
  { client := .ok ()
    eventsList := .ok []
    eventsGet := .ok Json.null
    eventsDelete := .ok ()
    calendarList := .ok []
    calendarGet := .ok Json.null
    freebusyQuery := .ok Json.null }

def c8_http_error_text : String :=
  "<HttpError 403 when requesting https://www.googleapis.com/calendar/v3/calendars/primary/events returned \"error\". Details: \"error\">"

def c8_env : ApiEnv := { sample_api_ok with eventsList := .error c8_http_error_text }

/-! ## Shared lemmas -/

/-- After a successful `save` the final path holds the serialized record
with mode 0o600: the `.tmp` sibling is written, chmodded, and renamed over
the final location. -/
theorem save_ok_final_file (fs : FS) (store_dir user_id : String)
    (data : TokenData) (create_mode : Nat) (fs2 : FS)
    (hs : sanitize_user_id user_id ≠ "")
    (h : FileTokenStore.save fs store_dir user_id data create_mode = .ok fs2) :
    fs2 (store_dir ++ "/" ++ sanitize_user_id user_id ++ ".token.json")
      = some ⟨FileContent.record data, 0o600⟩ := by
  unfold FileTokenStore.save token_path at h
  simp only [hs, if_false, Except.bind] at h
  cases h
  simp [FS.rename, FS.chmod, FS.write, jsonDump]

/-- A successful `save` implies the user id sanitized to something
nonempty. -/
theorem save_ok_sanitize_ne (fs : FS) (store_dir user_id : String)
    (data : TokenData) (create_mode : Nat) (fs2 : FS)
    (h : FileTokenStore.save fs store_dir user_id data create_mode = .ok fs2) :
    sanitize_user_id user_id ≠ "" := by
  intro hs
  unfold FileTokenStore.save token_path at h
  simp [hs, Except.bind] at h

/-! ## Claims -/

/-- C2: a stored record that yields a currently valid credential (not
expired, token present) is returned immediately in either mode, with zero
store writes and zero network calls — the only I/O is the single load, and
the store is unchanged. -/
theorem C2_cache_hit (user_id : String) (config : Config)
    (store : String → Option TokenData) (env : OAuthEnv) (headless : Bool)
    (d : TokenData)
    (hload : store user_id = some d)
    (hfresh : env.expired = false)
    (htok : d.token.isSome = true) :
    get_credentials user_id config store env headless =
      (.ok (credentials_from_dict d config false),
        ⟨1, [], 0, 0⟩, store) := by
  unfold get_credentials
  simp [hload, hfresh, Credentials.valid, credentials_from_dict, htok]

/-- C2 witness: concrete valid cached credential, both modes. -/
theorem C2_cache_hit_witness :
    sample_store_valid "default" = some sample_valid_data ∧
    env_cache_hit.expired = false ∧
    sample_valid_data.token.isSome = true ∧
    get_credentials "default" sample_config sample_store_valid env_cache_hit true =
      (.ok (credentials_from_dict sample_valid_data sample_config false),
        ⟨1, [], 0, 0⟩, sample_store_valid) ∧
    get_credentials "default" sample_config sample_store_valid env_cache_hit false =
      (.ok (credentials_from_dict sample_valid_data sample_config false),
        ⟨1, [], 0, 0⟩, sample_store_valid) :=
  ⟨rfl, rfl, rfl,
    C2_cache_hit "default" sample_config sample_store_valid env_cache_hit true
      sample_valid_data rfl rfl rfl,
    C2_cache_hit "default" sample_config sample_store_valid env_cache_hit false
      sample_valid_data rfl rfl rfl⟩

/-- C5: `load(u)` after `save(u, r)` returns a record equal to `r` in all
persisted fields, for any user id with nonempty sanitized form. -/
theorem C5_save_load_round_trip (fs : FS) (store_dir user_id : String)
    (data : TokenData) (create_mode : Nat) (fs2 : FS)
    (hs : sanitize_user_id user_id ≠ "")
    (h : FileTokenStore.save fs store_dir user_id data create_mode = .ok fs2) :
    FileTokenStore.load fs2 store_dir user_id = .ok (some data) := by
  have hfile := save_ok_final_file fs store_dir user_id data create_mode fs2 hs h
  unfold FileTokenStore.load token_path
  simp [hs, Bind.bind, Except.bind, pure, Except.pure, hfile, jsonLoad]

/-- C5 witness: a concrete record round-trips under user id `default`. -/
theorem C5_save_load_round_trip_witness :
    sanitize_user_id "default" ≠ "" ∧
    ∃ fs2, FileTokenStore.save fs_empty "/tokens" "default" sample_valid_data 0o644
        = .ok fs2 ∧
      FileTokenStore.load fs2 "/tokens" "default" = .ok (some sample_valid_data) := by
  have hOk : exceptIsOk
      (FileTokenStore.save fs_empty "/tokens" "default" sample_valid_data 0o644)
      = true := rfl
  refine ⟨by decide, ?_⟩
  cases h : FileTokenStore.save fs_empty "/tokens" "default" sample_valid_data 0o644 with
  | error e => rw [h] at hOk; exact absurd hOk (by simp [exceptIsOk])
  | ok fs2 =>
      exact ⟨fs2, rfl, C5_save_load_round_trip fs_empty "/tokens" "default"
        sample_valid_data 0o644 fs2 (by decide) h⟩

/-- C6: a token file whose content cannot be decoded makes `load` return
absent (`None`) rather than raise — observationally identical to "no
credential". -/
theorem C6_corrupt_load_absent (fs : FS) (store_dir user_id : String)
    (f : FileData)
    (hs : sanitize_user_id user_id ≠ "")
    (hf : fs (store_dir ++ "/" ++ sanitize_user_id user_id ++ ".token.json")
        = some f)
    (hc : jsonLoad f.content = none) :
    FileTokenStore.load fs store_dir user_id = .ok none := by
  unfold FileTokenStore.load token_path
  simp [hs, Bind.bind, Except.bind, pure, Except.pure, hf, hc]

/-- C6 witness: a concrete corrupt file loads as absent. -/
theorem C6_corrupt_load_absent_witness :
    jsonLoad (FileContent.corrupt "not json at all") = none ∧
    FileTokenStore.load
      (fs_empty.write "/tokens/default.token.json"
        ⟨FileContent.corrupt "not json at all", 0o600⟩)
      "/tokens" "default" = .ok none := by
  constructor
  · rfl
  · exact C6_corrupt_load_absent _ "/tokens" "default"
      ⟨FileContent.corrupt "not json at all", 0o600⟩ (by decide) rfl rfl

/-- C7: after every successful `save`, the final token file carries
permission bits 0o600 — owner read/write only, no group or world access
(the low six permission bits are all clear). -/
theorem C7_save_permissions (fs : FS) (store_dir user_id : String)
    (data : TokenData) (create_mode : Nat) (fs2 : FS)
    (h : FileTokenStore.save fs store_dir user_id data create_mode = .ok fs2) :
    ∃ f, fs2 (store_dir ++ "/" ++ sanitize_user_id user_id ++ ".token.json")
        = some f ∧ f.mode = 0o600 ∧ f.mode % 64 = 0 := by
  have hs := save_ok_sanitize_ne fs store_dir user_id data create_mode fs2 h
  have hfile := save_ok_final_file fs store_dir user_id data create_mode fs2 hs h
  exact ⟨_, hfile, rfl, by simp⟩

/-- C7 witness: a concrete save (created with permissive mode 0o644) ends
with the final file at 0o600. -/
theorem C7_save_permissions_witness :
    ∃ fs2, FileTokenStore.save fs_empty "/tokens" "default" sample_valid_data 0o644
        = .ok fs2 ∧
      ∃ f, fs2 ("/tokens" ++ "/" ++ sanitize_user_id "default" ++ ".token.json")
          = some f ∧ f.mode = 0o600 ∧ f.mode % 64 = 0 := by
  have hOk : exceptIsOk
      (FileTokenStore.save fs_empty "/tokens" "default" sample_valid_data 0o644)
      = true := rfl
  cases h : FileTokenStore.save fs_empty "/tokens" "default" sample_valid_data 0o644 with
  | error e => rw [h] at hOk; exact absurd hOk (by simp [exceptIsOk])
  | ok fs2 =>
      exact ⟨fs2, rfl,
        C7_save_permissions fs_empty "/tokens" "default" sample_valid_data 0o644 fs2 h⟩

/-- C1: when the stored record is expired with a refresh token present and
the refresh is rejected, `get_credentials` does not fail at that point: in
headless mode it fails with the no-valid-token error (not a refresh
error), and in interactive mode it runs the browser flow and succeeds
exactly when the flow succeeds.  The refresh failure is never a top-level
outcome. -/
theorem C1_refresh_failure_falls_through (user_id : String) (config : Config)
    (store : String → Option TokenData) (env : OAuthEnv)
    (d : TokenData) (rt err : String)
    (hload : store user_id = some d)
    (hexp : env.expired = true)
    (hrt : d.refresh_token = some rt)
    (hrtne : rt ≠ "")
    (href : env.refreshResult = .error err) :
    get_credentials user_id config store env true
        = (.error (.noValidToken user_id), ⟨1, [], 1, 0⟩, store) ∧
    (∀ c, env.flowResult = .ok c →
      get_credentials user_id config store env false
          = (.ok c, ⟨1, [(user_id, credentials_to_dict c)], 1, 1⟩,
            storeUpdate store user_id (credentials_to_dict c))) ∧
    (∀ cause, env.flowResult = .error cause →
      get_credentials user_id config store env false
          = (.error (.flowFailed user_id cause), ⟨1, [], 1, 1⟩, store)) := by
  have hbe : (rt == "") = false := by
    simp [hrtne]
  refine ⟨?_, ?_, ?_⟩
  · unfold get_credentials oauth_fallback
    simp [hload, hexp, hrt, href, credentials_from_dict, Credentials.valid,
      pyTruthyStr, hbe]
  · intro c hc
    unfold get_credentials oauth_fallback
    simp [hload, hexp, hrt, href, hc, credentials_from_dict, Credentials.valid,
      pyTruthyStr, hbe]
  · intro cause hc
    unfold get_credentials oauth_fallback
    simp [hload, hexp, hrt, href, hc, credentials_from_dict, Credentials.valid,
      pyTruthyStr, hbe]

/-- C1 witness: a revoked refresh on a concrete expired record: headless
fails with the no-valid-token error, interactive returns the flow result. -/
theorem C1_refresh_failure_falls_through_witness :
    sample_store_expired "default" = some sample_expired_data ∧
    env_refresh_revoked.expired = true ∧
    sample_expired_data.refresh_token = some "R" ∧
    "R" ≠ "" ∧
    env_refresh_revoked.refreshResult
        = .error "invalid_grant: Token has been expired or revoked." ∧
    get_credentials "default" sample_config sample_store_expired env_refresh_revoked true
        = (.error (.noValidToken "default"), ⟨1, [], 1, 0⟩, sample_store_expired) ∧
    get_credentials "default" sample_config sample_store_expired env_refresh_revoked false
        = (.ok sample_flow_creds,
          ⟨1, [("default", credentials_to_dict sample_flow_creds)], 1, 1⟩,
          storeUpdate sample_store_expired "default"
            (credentials_to_dict sample_flow_creds)) := by
  have h := C1_refresh_failure_falls_through "default" sample_config
    sample_store_expired env_refresh_revoked sample_expired_data "R"
    "invalid_grant: Token has been expired or revoked." rfl rfl rfl
    (by decide) rfl
  exact ⟨rfl, rfl, rfl, by decide, rfl, h.1, h.2.1 sample_flow_creds rfl⟩

/-- C3: when the stored record is expired with a refresh token present and
the refresh succeeds with a new access token, `get_credentials` returns a
credential carrying the new token, performs exactly one store write (a
full overwrite under the same user id), and a subsequent load of that user
id reflects the new access token. -/
theorem C3_refresh_success (user_id : String) (config : Config)
    (store : String → Option TokenData) (env : OAuthEnv) (headless : Bool)
    (d : TokenData) (rt newTok : String)
    (hload : store user_id = some d)
    (hexp : env.expired = true)
    (hrt : d.refresh_token = some rt)
    (hrtne : rt ≠ "")
    (href : env.refreshResult = .ok newTok) :
    get_credentials user_id config store env headless
        = (.ok (refresh_effect (credentials_from_dict d config true) newTok),
          ⟨1, [(user_id, credentials_to_dict
              (refresh_effect (credentials_from_dict d config true) newTok))], 1, 0⟩,
          storeUpdate store user_id (credentials_to_dict
            (refresh_effect (credentials_from_dict d config true) newTok))) ∧
    (refresh_effect (credentials_from_dict d config true) newTok).token
        = some newTok ∧
    (credentials_to_dict
        (refresh_effect (credentials_from_dict d config true) newTok)).token
        = some newTok ∧
    storeUpdate store user_id (credentials_to_dict
        (refresh_effect (credentials_from_dict d config true) newTok)) user_id
      = some (credentials_to_dict
          (refresh_effect (credentials_from_dict d config true) newTok)) := by
  have hbe : (rt == "") = false := by
    simp [hrtne]
  refine ⟨?_, rfl, rfl, ?_⟩
  · unfold get_credentials
    simp [hload, hexp, hrt, href, credentials_from_dict, Credentials.valid,
      pyTruthyStr, hbe, refresh_effect]
  · simp [storeUpdate]

/-- C3 witness: refresh token `R`, refresh succeeding with `NEW`, in both
modes; the stored record after the call carries access token `NEW`. -/
theorem C3_refresh_success_witness :
    sample_store_expired "default" = some sample_expired_data ∧
    env_refresh_ok.expired = true ∧
    sample_expired_data.refresh_token = some "R" ∧
    "R" ≠ "" ∧
    env_refresh_ok.refreshResult = .ok "NEW" ∧
    (∀ headless,
      get_credentials "default" sample_config sample_store_expired env_refresh_ok headless
        = (.ok (refresh_effect
              (credentials_from_dict sample_expired_data sample_config true) "NEW"),
          ⟨1, [("default", credentials_to_dict (refresh_effect
              (credentials_from_dict sample_expired_data sample_config true) "NEW"))],
            1, 0⟩,
          storeUpdate sample_store_expired "default"
            (credentials_to_dict (refresh_effect
              (credentials_from_dict sample_expired_data sample_config true) "NEW")))) ∧
    (credentials_to_dict (refresh_effect
        (credentials_from_dict sample_expired_data sample_config true) "NEW")).token
      = some "NEW" ∧
    storeUpdate sample_store_expired "default"
        (credentials_to_dict (refresh_effect
          (credentials_from_dict sample_expired_data sample_config true) "NEW"))
        "default"
      = some (credentials_to_dict (refresh_effect
          (credentials_from_dict sample_expired_data sample_config true) "NEW")) := by
  refine ⟨rfl, rfl, rfl, by decide, rfl, ?_, ?_, ?_⟩
  · intro headless
    exact (C3_refresh_success "default" sample_config sample_store_expired
      env_refresh_ok headless sample_expired_data "R" "NEW" rfl rfl rfl
      (by decide) rfl).1
  · exact (C3_refresh_success "default" sample_config sample_store_expired
      env_refresh_ok true sample_expired_data "R" "NEW" rfl rfl rfl
      (by decide) rfl).2.2.1
  · exact (C3_refresh_success "default" sample_config sample_store_expired
      env_refresh_ok true sample_expired_data "R" "NEW" rfl rfl rfl
      (by decide) rfl).2.2.2

/-- C4: a user id whose sanitized form is empty makes `load`, `save` and
`delete` all fail fast with the `ValueError`, before touching any file;
and for every user id the sanitized basename consists only of
alphanumerics, `-` and `_` — in particular it contains no path separator,
no backslash and no dot, so no sanitized key addresses a file outside the
storage directory. -/
theorem C4_sanitization_defense (fs : FS) (store_dir user_id : String) :
    (sanitize_user_id user_id = "" →
      FileTokenStore.load fs store_dir user_id
          = .error ("Invalid user_id: " ++ user_id) ∧
      (∀ data create_mode,
        FileTokenStore.save fs store_dir user_id data create_mode
          = .error ("Invalid user_id: " ++ user_id)) ∧
      FileTokenStore.delete fs store_dir user_id
          = .error ("Invalid user_id: " ++ user_id)) ∧
    (∀ c ∈ (sanitize_user_id user_id).data,
      c.isAlphanum = true ∨ c = '-' ∨ c = '_') ∧
    '/' ∉ (sanitize_user_id user_id).data ∧
    '\\' ∉ (sanitize_user_id user_id).data ∧
    '.' ∉ (sanitize_user_id user_id).data := by
  have hmem : ∀ c ∈ (sanitize_user_id user_id).data,
      c.isAlphanum = true ∨ c = '-' ∨ c = '_' := by
    intro c hc
    have hc2 : c ∈ user_id.data.filter
        (fun c => c.isAlphanum || c = '-' || c = '_') := hc
    have := List.of_mem_filter hc2
    simpa [or_assoc] using this
  refine ⟨?_, hmem, ?_, ?_, ?_⟩
  · intro h
    refine ⟨?_, ?_, ?_⟩
    · unfold FileTokenStore.load token_path
      simp [h, Bind.bind, Except.bind]
    · intro data create_mode
      unfold FileTokenStore.save token_path
      simp [h, Bind.bind, Except.bind]
    · unfold FileTokenStore.delete token_path
      simp [h, Bind.bind, Except.bind]
  · intro hc
    rcases hmem _ hc with h | h | h <;> simp_all
  · intro hc
    rcases hmem _ hc with h | h | h <;> simp_all
  · intro hc
    rcases hmem _ hc with h | h | h <;> simp_all

/-- C4 witness: `/..` sanitizes to empty and all three operations reject
it; a traversal-shaped id keeps neither slashes nor dots. -/
theorem C4_sanitization_defense_witness :
    sanitize_user_id "/.." = "" ∧
    FileTokenStore.load fs_empty "/tokens" "/.."
        = .error ("Invalid user_id: " ++ "/..") ∧
    FileTokenStore.save fs_empty "/tokens" "/.." sample_valid_data 0o644
        = .error ("Invalid user_id: " ++ "/..") ∧
    FileTokenStore.delete fs_empty "/tokens" "/.."
        = .error ("Invalid user_id: " ++ "/..") ∧
    '/' ∉ (sanitize_user_id "../../etc/passwd").data ∧
    '.' ∉ (sanitize_user_id "../../etc/passwd").data := by
  have h := C4_sanitization_defense fs_empty "/tokens" "/.."
  have h2 := C4_sanitization_defense fs_empty "/tokens" "../../etc/passwd"
  refine ⟨by decide, ?_, ?_, ?_, ?_, ?_⟩
  · exact (h.1 (by decide)).1
  · exact (h.1 (by decide)).2.1 sample_valid_data 0o644
  · exact (h.1 (by decide)).2.2
  · exact h2.2.2.1
  · exact h2.2.2.2.2

/-- C10: sanitization is not injective — when two distinct user ids share
a nonempty sanitized form, all operations address the same token file, so
a load under one returns what was saved under the other. -/
theorem C10_sanitize_collision (fs : FS) (store_dir : String)
    (u1 u2 : String) (data : TokenData) (create_mode : Nat) (fs2 : FS)
    (hne : u1 ≠ u2)
    (heq : sanitize_user_id u1 = sanitize_user_id u2)
    (hs : sanitize_user_id u1 ≠ "")
    (h : FileTokenStore.save fs store_dir u1 data create_mode = .ok fs2) :
    FileTokenStore.load fs2 store_dir u2 = .ok (some data) := by
  have hfile := save_ok_final_file fs store_dir u1 data create_mode fs2 hs h
  rw [heq] at hfile
  have hs2 : sanitize_user_id u2 ≠ "" := heq ▸ hs
  unfold FileTokenStore.load token_path
  simp [hs2, Bind.bind, Except.bind, pure, Except.pure, hfile, jsonLoad]

/-- C10 witness: `a.b` and `ab` are distinct ids with the same sanitized
form; a record saved under `a.b` is loaded back under `ab`. -/
theorem C10_sanitize_collision_witness :
    "a.b" ≠ "ab" ∧
    sanitize_user_id "a.b" = sanitize_user_id "ab" ∧
    sanitize_user_id "a.b" ≠ "" ∧
    ∃ fs2, FileTokenStore.save fs_empty "/tokens" "a.b" sample_valid_data 0o644
        = .ok fs2 ∧
      FileTokenStore.load fs2 "/tokens" "ab" = .ok (some sample_valid_data) := by
  have hOk : exceptIsOk
      (FileTokenStore.save fs_empty "/tokens" "a.b" sample_valid_data 0o644)
      = true := rfl
  refine ⟨by decide, by decide, by decide, ?_⟩
  cases h : FileTokenStore.save fs_empty "/tokens" "a.b" sample_valid_data 0o644 with
  | error e => rw [h] at hOk; exact absurd hOk (by simp [exceptIsOk])
  | ok fs2 =>
      exact ⟨fs2, rfl, C10_sanitize_collision fs_empty "/tokens" "a.b" "ab"
        sample_valid_data 0o644 fs2 (by decide) (by decide) (by decide) h⟩

/-- C9: in every exposed tool, a parameter valuation that fails validation
(empty required string, or an out-of-range `order_by`) produces the
structured error payload with zero `get_client()` calls and zero API
round-trips — the check precedes any network activity, client construction
included.  (The tools are total functions into `Json`: every exception is
caught, so no unhandled fault can escape.) -/
theorem C9_validation_before_network (env : ApiEnv) :
    (∀ calendar_id time_min time_max max_results order_by,
      valid_order_by order_by = false →
      list_events_tool env calendar_id time_min time_max max_results order_by
        = (error_json valid_order_by_msg, ⟨0, 0⟩)) ∧
    (∀ query calendar_id time_min time_max max_results,
      py_strip query = "" →
      search_events_tool env query calendar_id time_min time_max max_results
        = (error_json "query must not be empty", ⟨0, 0⟩)) ∧
    (∀ event_id calendar_id,
      py_strip event_id = "" →
      get_event_tool env event_id calendar_id
        = (error_json "event_id must not be empty", ⟨0, 0⟩)) ∧
    (∀ summary start_ end_ calendar_id description location attendees
        all_day color_id reminders,
      py_strip summary = "" →
      create_event_tool env summary start_ end_ calendar_id description
          location attendees all_day color_id reminders
        = (error_json "summary must not be empty", ⟨0, 0⟩)) ∧
    (∀ summary start_ end_ calendar_id description location attendees
        all_day color_id reminders,
      py_strip summary ≠ "" → (py_strip start_ = "" ∨ py_strip end_ = "") →
      create_event_tool env summary start_ end_ calendar_id description
          location attendees all_day color_id reminders
        = (error_json "start and end must not be empty", ⟨0, 0⟩)) ∧
    (∀ event_id calendar_id summary start_ end_ description location
        attendees color_id reminders,
      py_strip event_id = "" →
      update_event_tool env event_id calendar_id summary start_ end_
          description location attendees color_id reminders
        = (error_json "event_id must not be empty", ⟨0, 0⟩)) ∧
    (∀ event_id calendar_id,
      py_strip event_id = "" →
      delete_event_tool env event_id calendar_id
        = (error_json "event_id must not be empty", ⟨0, 0⟩)) ∧
    (∀ calendar_id,
      py_strip calendar_id = "" →
      get_calendar_tool env calendar_id
        = (error_json "calendar_id must not be empty", ⟨0, 0⟩)) ∧
    (∀ time_min time_max calendar_ids timezone,
      (py_strip time_min = "" ∨ py_strip time_max = "") →
      check_free_busy_tool env time_min time_max calendar_ids timezone
        = (error_json "time_min and time_max must not be empty", ⟨0, 0⟩)) := by
  refine ⟨?_, ?_, ?_, ?_, ?_, ?_, ?_, ?_, ?_⟩
  · intro calendar_id time_min time_max max_results order_by h
    simp [list_events_tool, h]
  · intro query calendar_id time_min time_max max_results h
    simp [search_events_tool, h]
  · intro event_id calendar_id h
    simp [get_event_tool, h]
  · intro summary start_ end_ calendar_id description location attendees
      all_day color_id reminders h
    simp [create_event_tool, h]
  · intro summary start_ end_ calendar_id description location attendees
      all_day color_id reminders hsum h
    rcases h with h | h <;> simp [create_event_tool, hsum, h]
  · intro event_id calendar_id summary start_ end_ description location
      attendees color_id reminders h
    simp [update_event_tool, h]
  · intro event_id calendar_id h
    simp [delete_event_tool, h]
  · intro calendar_id h
    simp [get_calendar_tool, h]
  · intro time_min time_max calendar_ids timezone h
    rcases h with h | h <;> simp [check_free_busy_tool, h]

/-- C9 witness: one concrete failing valuation per tool, against a live
environment, each returning the structured error with no client call. -/
theorem C9_validation_before_network_witness :
    valid_order_by "alphabetical" = false ∧
    list_events_tool sample_api_ok "primary" "" "" 10 "alphabetical"
        = (error_json valid_order_by_msg, ⟨0, 0⟩) ∧
    search_events_tool sample_api_ok "   " "primary" "" "" 10
        = (error_json "query must not be empty", ⟨0, 0⟩) ∧
    get_event_tool sample_api_ok "" "primary"
        = (error_json "event_id must not be empty", ⟨0, 0⟩) ∧
    create_event_tool sample_api_ok " " "2024-01-15T10:00:00Z"
        "2024-01-15T11:00:00Z" "primary" "" "" "" false "" ""
        = (error_json "summary must not be empty", ⟨0, 0⟩) ∧
    create_event_tool sample_api_ok "Lunch" "" "2024-01-15T11:00:00Z"
        "primary" "" "" "" false "" ""
        = (error_json "start and end must not be empty", ⟨0, 0⟩) ∧
    update_event_tool sample_api_ok "" "primary" "" "" "" "" "" "" "" ""
        = (error_json "event_id must not be empty", ⟨0, 0⟩) ∧
    delete_event_tool sample_api_ok "" "primary"
        = (error_json "event_id must not be empty", ⟨0, 0⟩) ∧
    get_calendar_tool sample_api_ok "  "
        = (error_json "calendar_id must not be empty", ⟨0, 0⟩) ∧
    check_free_busy_tool sample_api_ok "" "2024-01-15T17:00:00Z" "primary" "UTC"
        = (error_json "time_min and time_max must not be empty", ⟨0, 0⟩) := by
  have h := C9_validation_before_network sample_api_ok
  exact ⟨by decide,
    h.1 "primary" "" "" 10 "alphabetical" (by decide),
    h.2.1 "   " "primary" "" "" 10 (by decide),
    h.2.2.1 "" "primary" (by decide),
    h.2.2.2.1 " " "2024-01-15T10:00:00Z" "2024-01-15T11:00:00Z" "primary"
      "" "" "" false "" "" (by decide),
    h.2.2.2.2.1 "Lunch" "" "2024-01-15T11:00:00Z" "primary"
      "" "" "" false "" "" (by decide) (Or.inl (by decide)),
    h.2.2.2.2.2.1 "" "primary" "" "" "" "" "" "" "" "" (by decide),
    h.2.2.2.2.2.2.1 "" "primary" (by decide),
    h.2.2.2.2.2.2.2.1 "  " (by decide),
    h.2.2.2.2.2.2.2.2 "" "2024-01-15T17:00:00Z" "primary" "UTC"
      (Or.inl (by decide))⟩

/-- C8: at a concrete API failure (an HTTP 403 with its full upstream
text), `list_events_tool` returns the error payload carrying the complete
normalized message — although `sanitize_api_error`, the purpose-built
status-code-only projection, would have reduced it to the bare code, the
handlers never call it, so the full message (URL and response detail
included) reaches the untrusted caller. -/
theorem C8_full_error_message_returned :
    list_events_tool c8_env "primary" "" "" 10 "startTime"
        = (error_json ("Failed to list events: " ++ c8_http_error_text), ⟨1, 1⟩) ∧
    sanitize_api_error ("Failed to list events: " ++ c8_http_error_text)
        = "Calendar API error (403)" ∧
    ("Failed to list events: " ++ c8_http_error_text)
        ≠ sanitize_api_error ("Failed to list events: " ++ c8_http_error_text) := by
  refine ⟨rfl, by decide, by decide⟩

end GCal
